import Mathlib

/-!
# Verification of the `amp-access` service (`src/extensions/amp-access/0.1/amp-access.js`)

A shallow embedding of the AMP Access orchestration engine:

* configuration parsing and validation (`buildConfig_`, `buildConfigLoginMap_`),
* the authorization flow (`runAuthorization_`, `setAuthResponse_`) modelled as a
  state machine over virtual time, where a promise is represented by its
  settlement time (`Option Nat`, `none` meaning it has not settled),
* view detection (`whenViewed_`) modelled as a race over a time-ordered event
  list with explicit arming/disarming of the four triggers,
* login deduplication (`login`) and dialog-result handling,
* the public read API (`getAuthdataField`).

JavaScript machine behaviour that the code relies on is embedded explicitly:
promise resolvers are idempotent (`resolveFirst`), `Promise.all` settles at the
join (max) of its components' settlement times, and JavaScript truthiness of
strings, JSON values, and optional query parameters is modelled by dedicated
predicates.
-/

namespace AmpAccess

/-- JSON-like values, as produced by `JSON.parse` of the `amp-access`
configuration element and by the authorization endpoint. -/
inductive JSONVal where
  | null : JSONVal
  | bool (b : Bool) : JSONVal
  | num (n : Int) : JSONVal
  | str (s : String) : JSONVal
  | obj (fields : List (String × JSONVal)) : JSONVal
  | arr (elems : List JSONVal) : JSONVal

/-- JavaScript falsiness of a JSON value: `null`, `false`, `0` and `""` are
falsy; objects and arrays are always truthy. -/
def jsFalsy : JSONVal → Bool
  | .null => true
  | .bool b => !b
  | .num n => n == 0
  | .str s => s == ""
  | .obj _ => false
  | .arr _ => false

/-- JavaScript truthiness of an optional string-valued field (`undefined` and
`""` are falsy, every other string is truthy). Used for guards such as
`if (config.authorization)`. -/
def truthyStr : Option String → Bool
  | none => false
  | some s => !(s == "")

/-- JavaScript truthiness of an optional JSON field, e.g. the guard
`!this.config_.authorizationFallbackResponse`. -/
def truthyJson : Option JSONVal → Bool
  | none => false
  | some v => !(jsFalsy v)

/-- The type of access flow (the `AccessType` enum). -/
inductive AccessType where
  | client : AccessType
  | server : AccessType
  | other : AccessType
deriving DecidableEq

/-- `AUTHORIZATION_TIMEOUT`: bound in milliseconds on the authorization fetch. -/
def AUTHORIZATION_TIMEOUT : Nat := 3000

/-- `VIEW_TIMEOUT`: default time-to-view in milliseconds. -/
def VIEW_TIMEOUT : Nat := 2000

/-- The validated access configuration (`AccessConfigDef`). The login map is a
finite association list, as built by `buildConfigLoginMap_`. -/
structure AccessConfig where
  type : AccessType
  authorization : Option String
  pingback : Option String
  loginMap : List (String × String)
  authorizationFallbackResponse : Option JSONVal

/-- Reasons construction of the configuration can fail; all of them are thrown
as user errors ("ConfigError" in the specification's taxonomy). -/
inductive ConfigError where
  | badType : ConfigError
  | badLoginValue : ConfigError
  | insecureUrl (url : String) : ConfigError
  | missingAuthorization : ConfigError
  | missingPingback : ConfigError
  | emptyLoginMap : ConfigError
deriving DecidableEq

/-- The raw `login` field of the configuration JSON: a single URL string, a
map of name→URL, or a truthy value of some other shape (which is rejected). -/
inductive LoginJson where
  | str (s : String) : LoginJson
  | map (m : List (String × String)) : LoginJson
  | badVal : LoginJson

/-- The relevant raw fields of the parsed configuration JSON tree. -/
structure ConfigJson where
  type : Option String
  authorization : Option String
  pingback : Option String
  login : Option LoginJson
  authorizationFallbackResponse : Option JSONVal

/-- `user.assertEnumValue(AccessType, ...)`: accepts exactly the three enum
values, fails otherwise. -/
def assertEnumValue (s : String) : Except ConfigError AccessType :=
  if s = "client" then .ok .client
  else if s = "server" then .ok .server
  else if s = "other" then .ok .other
  else .error .badType

/-- `buildConfigLoginMap_`: a falsy login config is ignored, a string is stored
under the empty-string key, an object is copied entry by entry, and anything
else fails. -/
def buildConfigLoginMap : Option LoginJson → Except ConfigError (List (String × String))
  | none => .ok []
  | some (.str s) => if s = "" then .ok [] else .ok [("", s)]
  | some (.map m) => .ok m
  | some .badVal => .error .badLoginValue

/-- Character-list prefix test (an executable counterpart of
`String.startsWith`). -/
def leadingMatch : List Char → List Char → Bool
  | [], _ => true
  | _ :: _, [] => false
  | a :: as, b :: bs => a == b && leadingMatch as bs

/-- Modelled from the spec: `assertHttpsUrl` lives in `src/url` which is not
part of this repository snapshot; the spec requires that "all URLs must use a
secure transport scheme". -/
def isSecureUrl (url : String) : Bool :=
  leadingMatch "https://".data url.data

/-- `assertHttpsUrl` applied to each entry of the login map (the `for..in`
loop of `buildConfig_`). -/
def checkLoginUrls : List (String × String) → Except ConfigError Unit
  | [] => .ok ()
  | (_, u) :: rest =>
    if isSecureUrl u then checkLoginUrls rest else .error (.insecureUrl u)

/-- The URL-validity section of `buildConfig_`: `assertHttpsUrl` on the
authorization and pingback URLs when they are truthy, and on every login-map
entry unconditionally. -/
def checkUrls (cfg : AccessConfig) : Except ConfigError Unit :=
  if truthyStr cfg.authorization && !isSecureUrl (cfg.authorization.getD "") then
    .error (.insecureUrl (cfg.authorization.getD ""))
  else if truthyStr cfg.pingback && !isSecureUrl (cfg.pingback.getD "") then
    .error (.insecureUrl (cfg.pingback.getD ""))
  else checkLoginUrls cfg.loginMap

/-- The mandatory-field section of `buildConfig_`: for `type = client/server`,
`authorization`, `pingback` and at least one login URL are all required. -/
def checkMandatory (cfg : AccessConfig) : Except ConfigError Unit :=
  if cfg.type = AccessType.client ∨ cfg.type = AccessType.server then
    if !truthyStr cfg.authorization then .error .missingAuthorization
    else if !truthyStr cfg.pingback then .error .missingPingback
    else if cfg.loginMap.length = 0 then .error .emptyLoginMap
    else .ok ()
  else .ok ()

/-- The validation tail of `buildConfig_`: URL checks first, then the
mandatory-field checks for `type = client/server`, in source order. -/
def validateConfig (cfg : AccessConfig) : Except ConfigError AccessConfig :=
  match checkUrls cfg with
  | .error e => .error e
  | .ok () =>
    match checkMandatory cfg with
    | .error e => .error e
    | .ok () => .ok cfg

/-- `buildConfig_`: resolve the access type (defaulting to `client` when the
raw field is falsy), build the login map, then validate URLs and mandatory
fields in the order of the source. -/
def buildConfig (cj : ConfigJson) : Except ConfigError AccessConfig :=
  match (if truthyStr cj.type then assertEnumValue (cj.type.getD "") else .ok .client :
      Except ConfigError AccessType) with
  | .error e => .error e
  | .ok ty =>
    match buildConfigLoginMap cj.login with
    | .error e => .error e
    | .ok lm =>
      validateConfig
        ⟨ty, cj.authorization, cj.pingback, lm, cj.authorizationFallbackResponse⟩

/-! ## Authorization engine

A promise is represented by its settlement time in virtual time: `Option Nat`,
with `none` meaning the promise has not settled (and will not, absent further
engine activity). The mutable fields of `AccessService` that the authorization
flow touches are collected in `EngineState`. -/

/-- Engine state: the stored authorization response (`authResponse_`), the
settlement time of `firstAuthorizationPromise_` (`none` while pending), the
settlement time of the latest run's own completion promise (`none` while
`lastAuthorizationPromise_` is still the initial alias of the first promise),
and whether the `amp-access-error` class is currently toggled on. -/
structure EngineState where
  authResponse : Option JSONVal
  firstResolvedAt : Option Nat
  lastAuthRunDone : Option Nat
  errorShown : Bool

/-- The state at construction time: no response, both promises pending,
`lastAuthorizationPromise_ = firstAuthorizationPromise_`, no error shown. -/
def initState : EngineState :=
  ⟨none, none, none, false⟩

/-- `this.firstAuthorizationResolver_()` at virtual time `t`: a JavaScript
promise resolver is idempotent, so resolving an already-settled promise is a
no-op. -/
def resolveFirst (s : EngineState) (t : Nat) : EngineState :=
  if s.firstResolvedAt.isSome then s
  else { s with firstResolvedAt := some t }

/-- `setAuthResponse_(authResponse)` at virtual time `t`: store the response
and invoke the first-authorization resolver. -/
def setAuthResponse (s : EngineState) (resp : JSONVal) (t : Nat) : EngineState :=
  resolveFirst { s with authResponse := some resp } t

/-- Settlement time of `lastAuthorizationPromise_`. After a run it is
`Promise.all([firstAuthorizationPromise_, promise])`, which settles at the join
(max) of its components' settlement times; before any run reassigns it, it is
the first-authorization promise itself. It never settles while the
first-authorization promise is pending. -/
def lastAuthSettleTime (s : EngineState) : Option Nat :=
  match s.firstResolvedAt, s.lastAuthRunDone with
  | some f, some r => some (max f r)
  | some f, none => some f
  | none, _ => none

/-- Abstract outcome of one `runAuthorization_` invocation. -/
inductive RunOutcome where
  | skipOther : RunOutcome
  | success (resp : JSONVal) : RunOutcome
  | failure : RunOutcome
  | fatal : RunOutcome

/-- One observed `runAuthorization_` run: its outcome, the virtual time at
which the response (or the skip) is processed, and the virtual time at which
the run's returned promise settles. -/
structure RunEvent where
  outcome : RunOutcome
  tResp : Nat
  tDone : Nat

/-- Effect of one `runAuthorization_` run on the engine state.

* `skipOther` (the `type=other` early return): the resolver is invoked and the
  function returns before `lastAuthorizationPromise_` is reassigned.
* `success resp` (fetched or fallback response): `setAuthResponse_` stores the
  response and resolves the first promise, the error class is toggled off, and
  `lastAuthorizationPromise_` becomes the join of the first promise and this
  run's completion.
* `failure` (the bottom `catch`): the error class is toggled on; neither the
  resolver nor `authResponse_` is touched, but `lastAuthorizationPromise_` is
  still reassigned to the join.
* `fatal` (a thrown `dev.assert`): the function aborts before any effect. -/
def stepRun (s : EngineState) (ev : RunEvent) : EngineState :=
  match ev.outcome with
  | .skipOther => resolveFirst s ev.tResp
  | .success resp =>
    { setAuthResponse s resp ev.tResp with
        errorShown := false, lastAuthRunDone := some ev.tDone }
  | .failure =>
    { s with errorShown := true, lastAuthRunDone := some ev.tDone }
  | .fatal => s

/-- A whole interleaving of `runAuthorization_` calls, applied in order. -/
def runTrace (s : EngineState) : List RunEvent → EngineState
  | [] => s
  | ev :: rest => runTrace (stepRun s ev) rest

/-! ### Determining a run's outcome from configuration and environment -/

/-- Environment of one run: the transport result of the authorization fetch
and how long the fetch takes (in milliseconds of virtual time). -/
inductive FetchRes where
  | ok (resp : JSONVal) : FetchRes
  | fail : FetchRes

/-- The network environment a run executes in. -/
structure RunEnv where
  fetch : FetchRes
  fetchDuration : Nat

/-- `timer_.timeoutPromise(AUTHORIZATION_TIMEOUT, xhr_.fetchJson(...))`: if the
fetch takes longer than the timeout, the bounded promise rejects with a
timeout error; otherwise it adopts the fetch's result. -/
def timeoutFetch (env : RunEnv) : FetchRes :=
  if AUTHORIZATION_TIMEOUT < env.fetchDuration then .fail else env.fetch

/-- The control flow of `runAuthorization_(opt_disableFallback)`:

* `type=other` with no (truthy) fallback response, or on a proxy origin: skip.
* An authorization URL configured: fetch bounded by the timeout; on failure
  substitute the fallback response when one is configured and fallback is not
  disabled, otherwise fall through to the error path.
* No authorization URL: use the fallback response directly; `dev.assert`
  throws when it is absent. -/
def runOutcome (cfg : AccessConfig) (isProxyOrigin disableFallback : Bool)
    (env : RunEnv) : RunOutcome :=
  if cfg.type = AccessType.other &&
      (!truthyJson cfg.authorizationFallbackResponse || isProxyOrigin) then
    .skipOther
  else if truthyStr cfg.authorization then
    match timeoutFetch env with
    | .ok resp => .success resp
    | .fail =>
      if truthyJson cfg.authorizationFallbackResponse && !disableFallback then
        .success (cfg.authorizationFallbackResponse.getD .null)
      else .failure
  else
    if truthyJson cfg.authorizationFallbackResponse then
      .success (cfg.authorizationFallbackResponse.getD .null)
    else .fatal

/-- One full `runAuthorization_` call: outcome determined by configuration and
environment, then applied to the engine state. -/
def runAuthorization (cfg : AccessConfig) (isProxyOrigin disableFallback : Bool)
    (env : RunEnv) (s : EngineState) (tResp tDone : Nat) : EngineState :=
  stepRun s ⟨runOutcome cfg isProxyOrigin disableFallback env, tResp, tDone⟩

/-! ### Pingback ordering and the authdata read API -/

/-- `reportWhenViewed_`: after the view promise resolves at `viewedAt`, the
chain waits for `lastAuthorizationPromise_` and only then invokes
`reportViewToServer_`; the pingback therefore starts at the join of the view
time and the last-authorization settlement time (and never if the latter never
settles). -/
def pingbackStartTime (viewedAt : Nat) (s : EngineState) : Option Nat :=
  (lastAuthSettleTime s).map (fun l => max viewedAt l)

/-- Split a character list on a separator character (an executable counterpart
of splitting a string on a one-character separator: splitting the empty string
yields one empty chunk). -/
def splitOnChar (c : Char) : List Char → List (List Char)
  | [] => [[]]
  | x :: xs =>
    match splitOnChar c xs, decide (x = c) with
    | rest, true => [] :: rest
    | r :: rs, false => (x :: r) :: rs
    | [], false => [[x]]

/-- Association-list lookup, as JavaScript property access on a parsed JSON
object. -/
def lookupKey : List (String × JSONVal) → String → Option JSONVal
  | [], _ => none
  | (k, v) :: rest, key => if k = key then some v else lookupKey rest key

/-- Modelled from the spec: `getValueForExpr` lives in `src/json` which is not
part of this repository snapshot; per the spec, `getAuthdataField(path)` yields
"the value of the specified field from the authorization response", with the
field expressed as a dot-separated path into the response tree. Returns `none`
(JavaScript `undefined`) when the path is absent. -/
def lookupPath : JSONVal → List String → Option JSONVal
  | v, [] => some v
  | .obj fields, k :: rest =>
    match lookupKey fields k with
    | some v => lookupPath v rest
    | none => none
  | _, _ :: _ => none

/-- Field lookup on the authorization response for a dot-separated path. -/
def getValueForExpr (v : JSONVal) (field : String) : Option JSONVal :=
  lookupPath v ((splitOnChar '.' field.data).map String.mk)

/-- The value computed inside `getAuthdataField`'s continuation:
`null` when no response is stored, and `getValueForExpr(...) || null`
otherwise — so a falsy stored value also comes out as `null`. -/
def getAuthdataFieldValue (s : EngineState) (field : String) : JSONVal :=
  match s.authResponse with
  | none => .null
  | some resp =>
    match getValueForExpr resp field with
    | none => .null
    | some v => if jsFalsy v then .null else v

/-- `getAuthdataField(field)`: the returned promise is
`lastAuthorizationPromise_.then(...)`, so it settles exactly when the
last-authorization promise settles, yielding the computed field value. -/
def getAuthdataField (s : EngineState) (field : String) : Option (Nat × JSONVal) :=
  (lastAuthSettleTime s).map (fun t => (t, getAuthdataFieldValue s field))

/-! ## Login coordination -/

/-- The login-related mutable fields of `AccessService`: the pending login
promise (`loginPromise_`, identified by a numeric id; `none` when no login is
pending), the start time of the pending attempt (`loginStartTime_`), plus a
fresh-id counter and a count of dialogs opened so far (to observe whether a
call launched a new dialog). -/
structure LoginState where
  loginPromise : Option Nat
  loginStartTime : Nat
  nextPromiseId : Nat
  dialogsOpened : Nat
deriving DecidableEq

/-- `login(type)` at time `now`, up to the point where the dialog is opened:
if a login is pending and it started under 1000ms ago, return the same pending
promise without opening a dialog; otherwise open a new dialog, record the new
pending promise and its start time. Returns the promise handed to the caller
together with the new state. -/
def login (s : LoginState) (now : Nat) : Nat × LoginState :=
  if s.loginPromise.isSome && decide (now - s.loginStartTime < 1000) then
    (s.loginPromise.getD 0, s)
  else
    (s.nextPromiseId,
      ⟨some s.nextPromiseId, now, s.nextPromiseId + 1, s.dialogsOpened + 1⟩)

/-- The follow-up effects the dialog-completion continuation can run. -/
inductive LoginAction where
  | broadcastReauthorize : LoginAction
  | runAuthorizationNoFallback : LoginAction
  | scheduleViewZero : LoginAction
deriving DecidableEq

/-- `const success = (s == 'true' || s == 'yes' || s == '1')` over the
(possibly absent) `success` query field. -/
def successFlag (s : Option String) : Bool :=
  s == some "true" || s == some "yes" || s == some "1"

/-- JavaScript `!s` over the `success` query field: true exactly when the
field is absent (`undefined`) or the empty string. -/
def emptyResult (s : Option String) : Bool :=
  s == none || s == some ""

/-- The `if (success || !s)` branch of the dialog-completion continuation: on a
success-equivalent outcome, broadcast a re-authorize signal, re-run
authorization with fallback disabled, and after it completes reschedule the
view detector with `timeToView = 0` (in that order); on explicit rejection, do
nothing. -/
def loginDialogActions (s : Option String) : List LoginAction :=
  if successFlag s || emptyResult s then
    [.broadcastReauthorize, .runAuthorizationNoFallback, .scheduleViewZero]
  else []

/-- Modelled from the spec: `parseQueryString` lives in `src/url` which is not
part of this repository snapshot; per the spec, the login dialog's return
payload is "a query-string-encoded result containing at minimum a `success`
field". Extracts the first value bound to `key` in a `k=v&k=v` string;
`none` when the key is absent. -/
def parseQueryValue (payload : String) (key : String) : Option String :=
  ((splitOnChar '&' payload.data).filterMap (fun kv =>
    match splitOnChar '=' kv with
    | [k, v] => if String.mk k = key then some (String.mk v) else none
    | [k] => if String.mk k = key then some "" else none
    | _ => none)).head?

/-- Effects of login completion for a whole dialog return payload. -/
def loginDialogResultActions (payload : String) : List LoginAction :=
  loginDialogActions (parseQueryValue payload "success")

/-! ## View detection (`whenViewed_`)

The wait is a race between four armed triggers: a visibility-false signal
(cancel), the `timeToView` timer, a scroll signal, and a tap. The promise
settles on the first trigger; both settlement continuations then release every
entry of `unlistenSet` (and the timer), so no trigger has an effect after the
first. The environment is a chronologically ordered list of external events;
the timer event is injected at its due time. -/

/-- The triggers that can fire while waiting for a view. -/
inductive VTrig where
  | visibilityFalse : VTrig
  | timerTick : VTrig
  | scrollSig : VTrig
  | tapSig : VTrig
deriving DecidableEq

/-- A trigger firing at a virtual time. -/
structure VEvent where
  t : Nat
  trig : VTrig
deriving DecidableEq

/-- Terminal outcome of a view-wait cycle. -/
inductive VOutcome where
  | viewed (t : Nat) : VOutcome
  | canceled (t : Nat) : VOutcome
deriving DecidableEq

/-- State of one wait cycle: whether the promise has settled (and how), and
whether each of the four trigger sources is still armed. -/
structure WaitState where
  settled : Option VOutcome
  armedVisibility : Bool
  armedTimer : Bool
  armedScroll : Bool
  armedTap : Bool
deriving DecidableEq

/-- At the start of the wait all four triggers are armed. -/
def initWait : WaitState :=
  ⟨none, true, true, true, true⟩

/-- How a trigger settles the promise: visibility-false rejects with a
cancellation, every other trigger resolves (a view is registered). -/
def settleOf (trig : VTrig) (t : Nat) : VOutcome :=
  match trig with
  | .visibilityFalse => .canceled t
  | _ => .viewed t

/-- Delivery of one event: if the promise has already settled, the trigger has
no effect (its listener has been released); otherwise it settles the promise
and all four sources are disarmed. -/
def stepEvent (st : WaitState) (e : VEvent) : WaitState :=
  if st.settled.isSome then st
  else ⟨some (settleOf e.trig e.t), false, false, false, false⟩

/-- Insert the timer's own firing, due at `ttv`, into the chronologically
ordered external-event list. -/
def injectTimer (ttv : Nat) : List VEvent → List VEvent
  | [] => [⟨ttv, .timerTick⟩]
  | e :: rest =>
    if e.t < ttv then e :: injectTimer ttv rest
    else ⟨ttv, .timerTick⟩ :: e :: rest

/-- `whenViewed_(timeToView)` run against a chronologically ordered list of
external events: `timeToView = 0` short-circuits to an immediately resolved
promise (no trigger is ever armed); otherwise the four triggers race. -/
def whenViewed (timeToView : Nat) (events : List VEvent) : WaitState :=
  if timeToView = 0 then ⟨some (.viewed 0), false, false, false, false⟩
  else (injectTimer timeToView events).foldl stepEvent initWait

/-! ## Sample configurations and environments used in concrete checks -/

/-- A minimal valid `type=client` configuration with no fallback response. -/
def clientCfg : AccessConfig :=
  ⟨.client, some "https://pub.example.com/auth", some "https://pub.example.com/ping",
    [("", "https://pub.example.com/login")], none⟩

/-- A `type=client` configuration with a fallback response configured. -/
def fallbackCfg : AccessConfig :=
  ⟨.client, some "https://pub.example.com/auth", some "https://pub.example.com/ping",
    [("", "https://pub.example.com/login")], some (.obj [("access", .bool false)])⟩

/-- An environment whose authorization fetch fails in transport after 100ms. -/
def failEnv : RunEnv := ⟨.fail, 100⟩

/-- An environment whose authorization fetch would succeed but takes 5000ms,
beyond the 3000ms bound. -/
def slowEnv : RunEnv := ⟨.ok (.obj [("access", .bool true)]), 5000⟩

/-- The raw configuration JSON corresponding to `clientCfg`. -/
def clientCfgJson : ConfigJson :=
  ⟨some "client", some "https://pub.example.com/auth", some "https://pub.example.com/ping",
    some (.str "https://pub.example.com/login"), none⟩

/-! ## Helper lemmas -/

theorem runTrace_append (s : EngineState) (tr₁ tr₂ : List RunEvent) :
    runTrace s (tr₁ ++ tr₂) = runTrace (runTrace s tr₁) tr₂ := by
  induction tr₁ generalizing s with
  | nil => rfl
  | cons ev rest ih => simp [runTrace, ih]

theorem resolveFirst_of_isSome (s : EngineState) (t : Nat)
    (h : s.firstResolvedAt.isSome) : resolveFirst s t = s := by
  simp [resolveFirst, h]

theorem stepRun_first_mono (s : EngineState) (ev : RunEvent) (f : Nat)
    (h : s.firstResolvedAt = some f) : (stepRun s ev).firstResolvedAt = some f := by
  rcases ev with ⟨o, tResp, tDone⟩
  cases o <;> simp [stepRun, setAuthResponse, resolveFirst, h]

theorem runTrace_first_mono (s : EngineState) (tr : List RunEvent) (f : Nat)
    (h : s.firstResolvedAt = some f) : (runTrace s tr).firstResolvedAt = some f := by
  induction tr generalizing s with
  | nil => exact h
  | cons ev rest ih => exact ih _ (stepRun_first_mono s ev f h)

theorem lastAuthSettleTime_first (s : EngineState) (t : Nat)
    (h : lastAuthSettleTime s = some t) :
    ∃ f, s.firstResolvedAt = some f ∧ f ≤ t := by
  rcases hf : s.firstResolvedAt with _ | f <;>
    rcases hr : s.lastAuthRunDone with _ | r <;>
      simp [lastAuthSettleTime, hf, hr] at h
  · exact ⟨f, rfl, le_of_eq h⟩
  · exact ⟨f, rfl, h ▸ le_max_left f r⟩

/-! ## Claims -/

/-- C1: for every interleaving of `runAuthorization_` calls (every trace of run
events applied to the freshly constructed engine), whenever the
last-authorization promise settles at time `t`, the first-authorization promise
has settled at some time `f ≤ t` — `lastAuthorizationPromise_` is the
`Promise.all` join of the first-authorization promise and the latest run's
completion, so it never settles before the first-authorization promise. -/
theorem lastAuthorization_never_before_first (tr : List RunEvent) (t : Nat)
    (h : lastAuthSettleTime (runTrace initState tr) = some t) :
    ∃ f, (runTrace initState tr).firstResolvedAt = some f ∧ f ≤ t :=
  lastAuthSettleTime_first _ t h

/-- Witness for C1: a concrete two-run trace (a failing run, then a successful
run) whose last-authorization promise settles at 10 with the first promise
settled at 8 ≤ 10. -/
theorem lastAuthorization_never_before_first_witness :
    ∃ f, (runTrace initState
        [⟨.failure, 4, 5⟩, ⟨.success (.obj []), 8, 10⟩]).firstResolvedAt = some f ∧
      f ≤ 10 :=
  lastAuthorization_never_before_first
    [⟨.failure, 4, 5⟩, ⟨.success (.obj []), 8, 10⟩] 10 rfl

/-- C2: the first-authorization promise resolves at most once for the lifetime
of the engine: once any prefix of a run trace has resolved it at time `f`,
every extension of the trace leaves it settled at the same `f` (each run
invokes the resolver on success and on the `type=other` skip path, but a
resolver invocation on an already-settled promise is a no-op, as the
`resolveFirst` equation states). -/
theorem firstAuthorization_resolves_once (tr₁ tr₂ : List RunEvent) (f : Nat)
    (s : EngineState) (t : Nat)
    (h : (runTrace initState tr₁).firstResolvedAt = some f)
    (hs : s.firstResolvedAt = some f) :
    (runTrace initState (tr₁ ++ tr₂)).firstResolvedAt = some f ∧
      resolveFirst s t = s := by
  constructor
  · rw [runTrace_append]
    exact runTrace_first_mono _ tr₂ f h
  · exact resolveFirst_of_isSome s t (by simp [hs])

/-- Witness for C2: after a successful run resolving the first promise at time
3, appending two more runs (a success and a skip, both of which invoke the
resolver) leaves it settled at 3, and a resolver call on a settled state is a
no-op. -/
theorem firstAuthorization_resolves_once_witness :
    (runTrace initState
        ([⟨.success (.obj []), 3, 6⟩] ++
          [⟨.success (.bool true), 7, 9⟩, ⟨.skipOther, 11, 11⟩])).firstResolvedAt =
        some 3 ∧
      resolveFirst ⟨some (.obj []), some 3, some 6, false⟩ 12 =
        ⟨some (.obj []), some 3, some 6, false⟩ :=
  firstAuthorization_resolves_once [⟨.success (.obj []), 3, 6⟩]
    [⟨.success (.bool true), 7, 9⟩, ⟨.skipOther, 11, 11⟩] 3
    ⟨some (.obj []), some 3, some 6, false⟩ 12 rfl rfl

/-- C3 counterexample: a `type=client` run with no fallback configured and a
failing fetch ends in unrecoverable failure; the engine toggles the visible
error state, but the first-authorization promise is NOT resolved (it remains
pending), and consequently the last-authorization promise never settles either
— contradicting the claim that "the first-authorization future still resolves
so that downstream consumers eventually progress". -/
theorem unrecoverableFailure_first_not_resolved :
    runOutcome clientCfg false true failEnv = .failure ∧
    (runAuthorization clientCfg false true failEnv initState 5 9).errorShown = true ∧
    (runAuthorization clientCfg false true failEnv initState 5 9).firstResolvedAt = none ∧
    lastAuthSettleTime (runAuthorization clientCfg false true failEnv initState 5 9) =
      none :=
  ⟨rfl, rfl, rfl, rfl⟩

/-- C3 (amended): when `runAuthorization_` ends in unrecoverable failure, it
surfaces a visible error state and does not reject the first-authorization
promise, but it does not resolve it either: the failing run leaves the
first-authorization settlement (and the stored response) exactly as they were,
so the first promise stays pending unless some other run resolves it. -/
theorem unrecoverableFailure_surfaces_error (cfg : AccessConfig)
    (proxy df : Bool) (env : RunEnv) (s : EngineState) (tResp tDone : Nat)
    (h : runOutcome cfg proxy df env = .failure) :
    (runAuthorization cfg proxy df env s tResp tDone).errorShown = true ∧
    (runAuthorization cfg proxy df env s tResp tDone).firstResolvedAt =
      s.firstResolvedAt ∧
    (runAuthorization cfg proxy df env s tResp tDone).authResponse =
      s.authResponse := by
  unfold runAuthorization
  rw [h]
  exact ⟨rfl, rfl, rfl⟩

/-- Witness for the amended C3: the concrete failing run from the
counterexample surfaces the error state and leaves the first-authorization
settlement and the stored response untouched. -/
theorem unrecoverableFailure_surfaces_error_witness :
    (runAuthorization clientCfg false true failEnv initState 5 9).errorShown = true ∧
    (runAuthorization clientCfg false true failEnv initState 5 9).firstResolvedAt =
      initState.firstResolvedAt ∧
    (runAuthorization clientCfg false true failEnv initState 5 9).authResponse =
      initState.authResponse :=
  unrecoverableFailure_surfaces_error clientCfg false true failEnv initState 5 9 rfl

/-- C4: the login continuation treats exactly `"true"`, `"yes"` and `"1"` as
success; any other non-empty `success` value is a rejection with no follow-up
effects; an absent or empty value is success-equivalent. On every
success-equivalent outcome the continuation emits the re-authorize broadcast,
re-runs authorization with fallback disabled, and then reschedules the view
detector with `timeToView = 0`; the concrete payloads `"success=yes"` and
`"success=no"` behave accordingly. -/
theorem login_success_parsing (v : String)
    (h1 : v ≠ "true") (h2 : v ≠ "yes") (h3 : v ≠ "1") (h4 : v ≠ "") :
    loginDialogActions (some "true") =
      [.broadcastReauthorize, .runAuthorizationNoFallback, .scheduleViewZero] ∧
    loginDialogActions (some "yes") =
      [.broadcastReauthorize, .runAuthorizationNoFallback, .scheduleViewZero] ∧
    loginDialogActions (some "1") =
      [.broadcastReauthorize, .runAuthorizationNoFallback, .scheduleViewZero] ∧
    loginDialogActions none =
      [.broadcastReauthorize, .runAuthorizationNoFallback, .scheduleViewZero] ∧
    loginDialogActions (some "") =
      [.broadcastReauthorize, .runAuthorizationNoFallback, .scheduleViewZero] ∧
    loginDialogActions (some v) = [] ∧
    loginDialogResultActions "success=yes" =
      [.broadcastReauthorize, .runAuthorizationNoFallback, .scheduleViewZero] ∧
    loginDialogResultActions "success=no" = [] := by
  refine ⟨rfl, rfl, rfl, rfl, rfl, ?_, rfl, rfl⟩
  simp [loginDialogActions, successFlag, emptyResult, h1, h2, h3, h4]

/-- Witness for C4: instantiated at the rejection value `"no"`. -/
theorem login_success_parsing_witness :
    loginDialogActions (some "true") =
      [.broadcastReauthorize, .runAuthorizationNoFallback, .scheduleViewZero] ∧
    loginDialogActions (some "yes") =
      [.broadcastReauthorize, .runAuthorizationNoFallback, .scheduleViewZero] ∧
    loginDialogActions (some "1") =
      [.broadcastReauthorize, .runAuthorizationNoFallback, .scheduleViewZero] ∧
    loginDialogActions none =
      [.broadcastReauthorize, .runAuthorizationNoFallback, .scheduleViewZero] ∧
    loginDialogActions (some "") =
      [.broadcastReauthorize, .runAuthorizationNoFallback, .scheduleViewZero] ∧
    loginDialogActions (some "no") = [] ∧
    loginDialogResultActions "success=yes" =
      [.broadcastReauthorize, .runAuthorizationNoFallback, .scheduleViewZero] ∧
    loginDialogResultActions "success=no" = [] :=
  login_success_parsing "no" (by decide) (by decide) (by decide) (by decide)

/-- C5: starting from a state with no pending login, a first `login` call at
time `t₁` opens a dialog and records a pending promise; a second call issued
less than 1000ms after `t₁` (while the attempt is pending) returns exactly the
same pending promise and leaves the state — in particular the count of opened
dialogs — unchanged; a second call issued 1000ms or more after `t₁` begins a
new attempt: it returns a different promise and opens a new dialog. -/
theorem login_dedup_window (s₀ : LoginState) (t₁ t₂ : Nat)
    (h₀ : s₀.loginPromise = none) :
    (t₂ - t₁ < 1000 →
      login (login s₀ t₁).2 t₂ = ((login s₀ t₁).1, (login s₀ t₁).2)) ∧
    (1000 ≤ t₂ - t₁ →
      (login (login s₀ t₁).2 t₂).1 ≠ (login s₀ t₁).1 ∧
      (login (login s₀ t₁).2 t₂).2.dialogsOpened =
        (login s₀ t₁).2.dialogsOpened + 1 ∧
      (login (login s₀ t₁).2 t₂).2.loginStartTime = t₂) := by
  have hfirst : login s₀ t₁ =
      (s₀.nextPromiseId, ⟨some s₀.nextPromiseId, t₁, s₀.nextPromiseId + 1,
        s₀.dialogsOpened + 1⟩) := by
    simp [login, h₀]
  constructor
  · intro hlt
    rw [hfirst]
    simp [login, hlt]
  · intro hge
    rw [hfirst]
    have hnot : ¬ (t₂ - t₁ < 1000) := by omega
    simp [login, hnot]

/-- Witness for C5: from a fresh login state, a second call at t=500 returns
the pending promise from the call at t=0 unchanged. -/
theorem login_dedup_window_witness :
    login (login ⟨none, 0, 7, 0⟩ 0).2 500 =
      ((login ⟨none, 0, 7, 0⟩ 0).1, (login ⟨none, 0, 7, 0⟩ 0).2) :=
  (login_dedup_window ⟨none, 0, 7, 0⟩ 0 500 rfl).1 (by decide)

theorem foldl_stepEvent_of_settled (evs : List VEvent) (st : WaitState)
    (h : st.settled.isSome) : evs.foldl stepEvent st = st := by
  induction evs with
  | nil => rfl
  | cons e rest ih =>
    have : stepEvent st e = st := by simp [stepEvent, h]
    simp [List.foldl, this, ih]

theorem injectTimer_ne_nil (ttv : Nat) (evs : List VEvent) :
    ∃ e rest, injectTimer ttv evs = e :: rest := by
  cases evs with
  | nil => exact ⟨⟨ttv, .timerTick⟩, [], rfl⟩
  | cons e rest =>
    by_cases h : e.t < ttv
    · rcases injectTimer_ne_nil ttv rest with ⟨e', rest', hrec⟩
      exact ⟨e, injectTimer ttv rest, by simp [injectTimer, h]⟩
    · exact ⟨⟨ttv, .timerTick⟩, e :: rest, by simp [injectTimer, h]⟩

theorem whenViewed_settles_and_disarms (ttv : Nat) (evs : List VEvent)
    (h : ttv ≠ 0) :
    ∃ o, whenViewed ttv evs = ⟨some o, false, false, false, false⟩ := by
  rcases injectTimer_ne_nil ttv evs with ⟨e, rest, heq⟩
  refine ⟨settleOf e.trig e.t, ?_⟩
  unfold whenViewed
  rw [if_neg h, heq]
  have hstep : stepEvent initWait e = ⟨some (settleOf e.trig e.t),
      false, false, false, false⟩ := rfl
  rw [List.foldl_cons, hstep]
  exact foldl_stepEvent_of_settled rest _ rfl

/-- C6: in the view-detection wait, whichever trigger fires first settles the
outcome and disarms every remaining source: once the promise is settled, the
delivery of any further trigger leaves the state unchanged (no trigger fires
twice or after cancellation), and for any nonzero `timeToView` the cycle ends
settled with all four sources — visibility listener, timer, scroll listener
and tap listener — released. Concretely, a scroll at t=500 under
`whenViewed(2000)` yields VIEWED at 500 (not 2000), a visibility-false signal
at t=100 yields CANCELED at 100 with the timer disarmed, and `timeToView = 0`
short-circuits directly to VIEWED. -/
theorem whenViewed_race (ttv : Nat) (evs : List VEvent) (st : WaitState)
    (e : VEvent) (hst : st.settled.isSome) (httv : ttv ≠ 0) :
    stepEvent st e = st ∧
    (∃ o, whenViewed ttv evs = ⟨some o, false, false, false, false⟩) ∧
    whenViewed 0 evs = ⟨some (.viewed 0), false, false, false, false⟩ ∧
    whenViewed 2000 [⟨500, .scrollSig⟩] =
      ⟨some (.viewed 500), false, false, false, false⟩ ∧
    whenViewed 2000 [⟨100, .visibilityFalse⟩] =
      ⟨some (.canceled 100), false, false, false, false⟩ := by
  refine ⟨by simp [stepEvent, hst], whenViewed_settles_and_disarms ttv evs httv,
    rfl, by decide, by decide⟩

/-- Witness for C6: instantiated at `timeToView = 2000` with an already
settled wait state receiving a late tap. -/
theorem whenViewed_race_witness :
    stepEvent ⟨some (.canceled 100), false, false, false, false⟩ ⟨2000, .tapSig⟩ =
      ⟨some (.canceled 100), false, false, false, false⟩ ∧
    whenViewed 2000 [⟨100, .visibilityFalse⟩] =
      ⟨some (.canceled 100), false, false, false, false⟩ :=
  ⟨(whenViewed_race 2000 [⟨100, .visibilityFalse⟩]
      ⟨some (.canceled 100), false, false, false, false⟩ ⟨2000, .tapSig⟩
      (by decide) (by decide)).1,
    (whenViewed_race 2000 [⟨100, .visibilityFalse⟩]
      ⟨some (.canceled 100), false, false, false, false⟩ ⟨2000, .tapSig⟩
      (by decide) (by decide)).2.2.2.2⟩

theorem checkLoginUrls_ok (l : List (String × String))
    (h : checkLoginUrls l = .ok ()) :
    ∀ k u, (k, u) ∈ l → isSecureUrl u = true := by
  induction l with
  | nil => intro k u hm; cases hm
  | cons p rest ih =>
    rcases p with ⟨k', u'⟩
    by_cases hs : isSecureUrl u' = true
    · intro k u hm
      rcases List.mem_cons.mp hm with heq | hmem
      · cases heq; exact hs
      · exact ih (by simpa [checkLoginUrls, hs] using h) k u hmem
    · exfalso
      simp only [checkLoginUrls, if_neg hs] at h
      exact Except.noConfusion h

theorem checkUrls_ok (cfg : AccessConfig) (h : checkUrls cfg = .ok ()) :
    (truthyStr cfg.authorization = true →
      isSecureUrl (cfg.authorization.getD "") = true) ∧
    (truthyStr cfg.pingback = true →
      isSecureUrl (cfg.pingback.getD "") = true) ∧
    checkLoginUrls cfg.loginMap = .ok () := by
  unfold checkUrls at h
  split at h
  · exact Except.noConfusion h
  · split at h
    · exact Except.noConfusion h
    · rename_i h1 h2
      refine ⟨?_, ?_, h⟩
      · intro ht
        cases hb : isSecureUrl (cfg.authorization.getD "") with
        | true => rfl
        | false => exact absurd (by rw [ht, hb]; rfl) h1
      · intro ht
        cases hb : isSecureUrl (cfg.pingback.getD "") with
        | true => rfl
        | false => exact absurd (by rw [ht, hb]; rfl) h2

theorem checkMandatory_ok (cfg : AccessConfig) (h : checkMandatory cfg = .ok ())
    (hty : cfg.type = AccessType.client ∨ cfg.type = AccessType.server) :
    truthyStr cfg.authorization = true ∧ truthyStr cfg.pingback = true ∧
      cfg.loginMap ≠ [] := by
  unfold checkMandatory at h
  rw [if_pos hty] at h
  split at h
  · exact Except.noConfusion h
  · split at h
    · exact Except.noConfusion h
    · split at h
      · exact Except.noConfusion h
      · rename_i h1 h2 h3
        refine ⟨?_, ?_, ?_⟩
        · simpa using h1
        · simpa using h2
        · intro hnil
          exact h3 (by simp [hnil])

theorem validateConfig_ok (c cfg : AccessConfig)
    (h : validateConfig c = .ok cfg) :
    checkUrls cfg = .ok () ∧ checkMandatory cfg = .ok () := by
  unfold validateConfig at h
  split at h
  · exact Except.noConfusion h
  · split at h
    · exact Except.noConfusion h
    · rename_i s1 hurls s2 hmand
      cases h
      exact ⟨hurls, hmand⟩

theorem buildConfig_ok (cj : ConfigJson) (cfg : AccessConfig)
    (h : buildConfig cj = .ok cfg) :
    checkUrls cfg = .ok () ∧ checkMandatory cfg = .ok () := by
  unfold buildConfig at h
  split at h
  · exact Except.noConfusion h
  · split at h
    · exact Except.noConfusion h
    · exact validateConfig_ok _ cfg h

/-- C7: whenever `buildConfig_` succeeds, a configuration of type `client` or
`server` has a (truthy) authorization URL, a (truthy) pingback URL and a
non-empty login map — so constructing without any of them fails with a
ConfigError — and every configured URL (authorization, pingback, and each
login entry) uses a secure scheme — so an insecure URL also makes
construction fail. -/
theorem config_mandatory_and_secure (cj : ConfigJson) (cfg : AccessConfig)
    (h : buildConfig cj = .ok cfg) :
    ((cfg.type = AccessType.client ∨ cfg.type = AccessType.server) →
      truthyStr cfg.authorization = true ∧ truthyStr cfg.pingback = true ∧
        cfg.loginMap ≠ []) ∧
    (truthyStr cfg.authorization = true →
      isSecureUrl (cfg.authorization.getD "") = true) ∧
    (truthyStr cfg.pingback = true →
      isSecureUrl (cfg.pingback.getD "") = true) ∧
    (∀ k u, (k, u) ∈ cfg.loginMap → isSecureUrl u = true) := by
  rcases buildConfig_ok cj cfg h with ⟨hurls, hmand⟩
  rcases checkUrls_ok cfg hurls with ⟨ha, hp, hl⟩
  exact ⟨checkMandatory_ok cfg hmand, ha, hp, checkLoginUrls_ok _ hl⟩

/-- Witness for C7: the sample client configuration JSON builds successfully
into `clientCfg`, which therefore carries all three mandatory pieces. -/
theorem config_mandatory_and_secure_witness :
    truthyStr clientCfg.authorization = true ∧
    truthyStr clientCfg.pingback = true ∧ clientCfg.loginMap ≠ [] :=
  (config_mandatory_and_secure clientCfgJson clientCfg rfl).1 (Or.inl rfl)

/-- C8: when `runAuthorization_` actually fetches (the `type=other` skip does
not apply and an authorization URL is configured), the fetch is bounded by the
3000ms `AUTHORIZATION_TIMEOUT` — a fetch that takes longer is discarded as a
timeout failure; on timeout or transport failure the run substitutes the
configured fallback response exactly when one is configured and
`disableFallback` is false, and otherwise ends on the error path; a fetch that
succeeds in time yields its response. -/
theorem authorization_timeout_fallback (cfg : AccessConfig) (proxy df : Bool)
    (env : RunEnv)
    (hskip : (cfg.type = AccessType.other &&
      (!truthyJson cfg.authorizationFallbackResponse || proxy)) = false)
    (hauth : truthyStr cfg.authorization = true) :
    AUTHORIZATION_TIMEOUT = 3000 ∧
    (AUTHORIZATION_TIMEOUT < env.fetchDuration → timeoutFetch env = .fail) ∧
    (timeoutFetch env = .fail →
      ((truthyJson cfg.authorizationFallbackResponse && !df) = true →
        runOutcome cfg proxy df env =
          .success (cfg.authorizationFallbackResponse.getD .null)) ∧
      ((truthyJson cfg.authorizationFallbackResponse && !df) = false →
        runOutcome cfg proxy df env = .failure)) ∧
    (∀ resp, timeoutFetch env = .ok resp →
      runOutcome cfg proxy df env = .success resp) := by
  refine ⟨rfl, ?_, ?_, ?_⟩
  · intro hlt
    simp [timeoutFetch, hlt]
  · intro hfail
    constructor
    · intro hfb
      simp [runOutcome, hskip, hauth, hfail, hfb]
    · intro hfb
      simp [runOutcome, hskip, hauth, hfail, hfb]
  · intro resp hok
    simp [runOutcome, hskip, hauth, hok]

/-- Witness for C8: the fallback-configured client config with a fetch that
takes 5000ms > 3000ms: the late response is discarded and the fallback
response is substituted (fallback not disabled). -/
theorem authorization_timeout_fallback_witness :
    runOutcome fallbackCfg false false slowEnv =
      .success (fallbackCfg.authorizationFallbackResponse.getD .null) :=
  ((authorization_timeout_fallback fallbackCfg false false slowEnv rfl rfl).2.2.1
    rfl).1 rfl

/-- C9: the view-report sequence invokes the pingback reporter only after the
most recent authorization run's promise (`lastAuthorizationPromise_`) has
settled: whenever the pingback starts at time `t`, the last-authorization
promise settled at some `l ≤ t` (and the view itself occurred at some
`viewedAt ≤ t`). -/
theorem pingback_after_lastAuthorization (s : EngineState) (viewedAt l t : Nat)
    (hl : lastAuthSettleTime s = some l)
    (hp : pingbackStartTime viewedAt s = some t) :
    l ≤ t ∧ viewedAt ≤ t := by
  rw [pingbackStartTime, hl] at hp
  injection hp with hp
  subst hp
  exact ⟨le_max_right viewedAt l, le_max_left viewedAt l⟩

/-- Witness for C9: a state whose last authorization settled at 10 and a view
at 4: the pingback starts at 10, not before. -/
theorem pingback_after_lastAuthorization_witness : (10 : Nat) ≤ 10 ∧ (4 : Nat) ≤ 10 :=
  pingback_after_lastAuthorization ⟨some (.obj []), some 3, some 10, false⟩ 4 10 10
    rfl rfl

/-- C10: `getAuthdataField(field)` settles exactly when the last-authorization
promise settles, and its value is `null` whenever no authorization response is
stored, the field is absent from the response, or the field's stored value is
falsy (`false`, `0`, `""`, `null`); a truthy stored value is returned as is.
In particular a field explicitly set to `false` is indistinguishable at this
API from a missing field. -/
theorem getAuthdataField_falsy_null (s : EngineState) (resp : JSONVal)
    (field : String) (v : JSONVal) (t : Nat) (val : JSONVal)
    (hwait : getAuthdataField s field = some (t, val)) :
    lastAuthSettleTime s = some t ∧
    (s.authResponse = none → getAuthdataFieldValue s field = .null) ∧
    (s.authResponse = some resp → getValueForExpr resp field = none →
      getAuthdataFieldValue s field = .null) ∧
    (s.authResponse = some resp → getValueForExpr resp field = some v →
      jsFalsy v = true → getAuthdataFieldValue s field = .null) ∧
    (s.authResponse = some resp → getValueForExpr resp field = some v →
      jsFalsy v = false → getAuthdataFieldValue s field = v) ∧
    getAuthdataFieldValue
        ⟨some (.obj [("subscriber", .bool false)]), some 0, none, false⟩
        "subscriber" =
      getAuthdataFieldValue ⟨some (.obj []), some 0, none, false⟩ "subscriber" := by
  refine ⟨?_, ?_, ?_, ?_, ?_, rfl⟩
  · rcases hls : lastAuthSettleTime s with _ | u
    · rw [getAuthdataField, hls] at hwait
      exact Option.noConfusion hwait
    · rw [getAuthdataField, hls] at hwait
      injection hwait with hwait
      injection hwait with h1 h2
      rw [h1]
  · intro hnone
    simp [getAuthdataFieldValue, hnone]
  · intro hsome hlook
    simp [getAuthdataFieldValue, hsome, hlook]
  · intro hsome hlook hfalsy
    simp [getAuthdataFieldValue, hsome, hlook, hfalsy]
  · intro hsome hlook hfalsy
    simp [getAuthdataFieldValue, hsome, hlook, hfalsy]

/-- Witness for C10: on a state storing `{"subscriber": false}` whose last
authorization settled at 6, the field read settles at 6 and a `false` field
value comes out as `null`. -/
theorem getAuthdataField_falsy_null_witness :
    lastAuthSettleTime
        ⟨some (.obj [("subscriber", .bool false)]), some 2, some 6, false⟩ =
      some 6 ∧
    getAuthdataFieldValue
        ⟨some (.obj [("subscriber", .bool false)]), some 2, some 6, false⟩
        "subscriber" =
      .null :=
  ⟨(getAuthdataField_falsy_null
      ⟨some (.obj [("subscriber", .bool false)]), some 2, some 6, false⟩
      (.obj [("subscriber", .bool false)]) "subscriber" (.bool false) 6 .null
      rfl).1,
    (getAuthdataField_falsy_null
      ⟨some (.obj [("subscriber", .bool false)]), some 2, some 6, false⟩
      (.obj [("subscriber", .bool false)]) "subscriber" (.bool false) 6 .null
      rfl).2.2.2.1 rfl rfl rfl⟩

end AmpAccess
